import Mathlib

/-!
Verification of the action-codes protocol core (actioncodesorg/protocol-v2).

The TypeScript sources are shallowly embedded: strings are Lean `String`
(JavaScript string lengths are modelled as UTF-16 code-unit counts),
millisecond timestamps are `Int`, byte arrays are `List Nat`, and thrown
exceptions are `Except` results.  Ed25519 verification and the HKDF/HMAC
code derivation are pure deterministic primitives supplied by libraries
(tweetnacl, noble); they are abstracted as explicit function parameters
so that every theorem holds for the real primitives.
-/

namespace ActionCodes

/-- Typed protocol errors, following `src/errors.ts` (factory methods of
`ProtocolError`).  Each constructor keeps the stable error code and the
string payloads the factories receive; numeric "offending value" payloads
are carried where the call sites pass them. -/
inductive ProtocolError where
  | invalidInput (field : String) (detail : String)
  | expiredCode (code : String) (expiresAt now : Int)
  | invalidSignature (detail : String)
  | missingRequiredField (field : String)
  | missingMeta
  | metaMismatch (expected actual field : String)
  | invalidAdapter (chain : String)
  | invalidTransactionFormat (detail : String)
  | invalidCodeFormat (detail : String)
  | invalidPubkeyFormat (pubkey : String)
  deriving DecidableEq

/-- A raw JavaScript runtime error (for example a `TypeError` from reading a
property of `undefined`, or tweetnacl "bad signature size"), as opposed to a
typed `ProtocolError`. -/
inductive JsError where
  | typeError (detail : String)
  | naclSizeError (detail : String)
  | base58Error (detail : String)
  deriving DecidableEq

/-- Either a typed protocol error or an escaped JavaScript runtime error. -/
inductive VError where
  | protocol (e : ProtocolError)
  | js (e : JsError)
  deriving DecidableEq

/-- Length of a string in UTF-16 code units: JavaScript `String.prototype.length`.
Characters above U+FFFF count as a surrogate pair. -/
def utf16Len (s : String) : Nat :=
  s.data.foldl (fun n c => n + (if 0x10000 ≤ c.toNat then 2 else 1)) 0

/-- One character of the guard character class of `src/utils/canonical.ts`:
double quote, backslash, or a C0/C1 control character (0x00-0x1F, 0x7F-0x9F). -/
def isJsonUnsafeChar (c : Char) : Bool :=
  c = '"' || c = '\\' || decide (c.toNat ≤ 0x1f) ||
    (decide (0x7f ≤ c.toNat) && decide (c.toNat ≤ 0x9f))

/-- Test of the regex `["\\\x00-\x1f\x7f-\x9f]` on a string. -/
def hasJsonUnsafeChar (s : String) : Bool :=
  s.data.any isJsonUnsafeChar

/-- UTF-8 encoding of a single Unicode scalar value. -/
def utf8EncodeChar (c : Char) : List Nat :=
  let n := c.toNat
  if n < 0x80 then [n]
  else if n < 0x800 then [0xC0 + n / 64, 0x80 + n % 64]
  else if n < 0x10000 then
    [0xE0 + n / 4096, 0x80 + (n / 64) % 64, 0x80 + n % 64]
  else
    [0xF0 + n / 262144, 0x80 + (n / 4096) % 64, 0x80 + (n / 64) % 64, 0x80 + n % 64]

/-- UTF-8 encoding of a string: the bytes `TextEncoder.encode` produces. -/
def utf8Encode (s : String) : List Nat :=
  (s.data.map utf8EncodeChar).flatten

/-- Lowercase hexadecimal digit. -/
def hexDigit (n : Nat) : Char :=
  if n < 10 then Char.ofNat (48 + n) else Char.ofNat (97 + (n - 10))

/-- Escape of one character inside a JSON string literal, following
`JSON.stringify`: only `"`, `\` and control characters below 0x20 are
escaped; C1 controls (0x7F-0x9F) are emitted verbatim. -/
def jsonEscapeChar (c : Char) : List Char :=
  if c = '"' then ['\\', '"']
  else if c = '\\' then ['\\', '\\']
  else if c = Char.ofNat 0x08 then ['\\', 'b']
  else if c = Char.ofNat 0x09 then ['\\', 't']
  else if c = Char.ofNat 0x0a then ['\\', 'n']
  else if c = Char.ofNat 0x0c then ['\\', 'f']
  else if c = Char.ofNat 0x0d then ['\\', 'r']
  else if c.toNat < 0x20 then
    ['\\', 'u', '0', '0', hexDigit (c.toNat / 16), hexDigit (c.toNat % 16)]
  else [c]

/-- `JSON.stringify` of a string value: a quoted, escaped literal. -/
def jsonQuote (s : String) : String :=
  ⟨'"' :: (s.data.map jsonEscapeChar).flatten ++ ['"']⟩

/-- Parts of the canonical generation message (`CanonicalMessageParts`). -/
structure CanonicalMessageParts where
  pubkey : String
  windowStart : Int
  deriving DecidableEq

/-- Parts of the canonical revoke message (`CanonicalRevokeMessageParts`). -/
structure CanonicalRevokeMessageParts where
  pubkey : String
  codeHash : String
  windowStart : Int
  deriving DecidableEq

/-- `serializeCanonical` of `src/utils/canonical.ts`: guard the pubkey
(non-empty, at most 100 UTF-16 units, no JSON-unsafe character), then emit
the UTF-8 bytes of `JSON.stringify` of the fixed-key-order object. -/
def serializeCanonical (parts : CanonicalMessageParts) : Except ProtocolError (List Nat) :=
  if parts.pubkey = "" then
    .error (.invalidInput "pubkey" "cannot be empty")
  else if 100 < utf16Len parts.pubkey then
    .error (.invalidInput "pubkey" "too long (max 100 characters)")
  else if hasJsonUnsafeChar parts.pubkey then
    .error (.invalidInput "pubkey" "contains invalid characters for public key or JSON")
  else
    .ok (utf8Encode
      ("\x7b\"id\":\"actioncodes\",\"ver\":1,\"pubkey\":" ++ jsonQuote parts.pubkey ++
       ",\"windowStart\":" ++ toString parts.windowStart ++ "\x7d"))

/-- `serializeCanonicalRevoke` of `src/utils/canonical.ts`. -/
def serializeCanonicalRevoke (parts : CanonicalRevokeMessageParts) :
    Except ProtocolError (List Nat) :=
  if parts.pubkey = "" then
    .error (.invalidInput "pubkey" "cannot be empty")
  else if 100 < utf16Len parts.pubkey then
    .error (.invalidInput "pubkey" "too long (max 100 characters)")
  else if parts.codeHash = "" then
    .error (.invalidInput "codeHash" "cannot be empty")
  else if 100 < utf16Len parts.codeHash then
    .error (.invalidInput "codeHash" "too long (max 100 characters)")
  else if hasJsonUnsafeChar parts.pubkey || hasJsonUnsafeChar parts.codeHash then
    .error (.invalidInput "input" "contains invalid characters")
  else
    .ok (utf8Encode
      ("\x7b\"id\":\"actioncodes-revoke\",\"ver\":1,\"pubkey\":" ++ jsonQuote parts.pubkey ++
       ",\"codeHash\":" ++ jsonQuote parts.codeHash ++
       ",\"windowStart\":" ++ toString parts.windowStart ++ "\x7d"))

/-- A delegation proof (`DelegationProof` of `src/types.ts`). -/
structure DelegationProof where
  walletPubkey : String
  delegatedPubkey : String
  chain : String
  expiresAt : Int
  signature : String
  deriving DecidableEq

/-- `serializeDelegationProof` of `src/utils/canonical.ts`: guard the three
string fields, then emit the UTF-8 bytes of the fixed-key-order object with
the signature field excluded. -/
def serializeDelegationProof (proof : DelegationProof) : Except ProtocolError (List Nat) :=
  if proof.walletPubkey = "" then
    .error (.invalidInput "walletPubkey" "cannot be empty")
  else if 100 < utf16Len proof.walletPubkey then
    .error (.invalidInput "walletPubkey" "too long (max 100 characters)")
  else if hasJsonUnsafeChar proof.walletPubkey then
    .error (.invalidInput "walletPubkey" "contains invalid characters for identifiers or JSON")
  else if proof.delegatedPubkey = "" then
    .error (.invalidInput "delegatedPubkey" "cannot be empty")
  else if 100 < utf16Len proof.delegatedPubkey then
    .error (.invalidInput "delegatedPubkey" "too long (max 100 characters)")
  else if hasJsonUnsafeChar proof.delegatedPubkey then
    .error (.invalidInput "delegatedPubkey" "contains invalid characters for identifiers or JSON")
  else if proof.chain = "" then
    .error (.invalidInput "chain" "cannot be empty")
  else if 100 < utf16Len proof.chain then
    .error (.invalidInput "chain" "too long (max 100 characters)")
  else if hasJsonUnsafeChar proof.chain then
    .error (.invalidInput "chain" "contains invalid characters for identifiers or JSON")
  else
    .ok (utf8Encode
      ("\x7b\"walletPubkey\":" ++ jsonQuote proof.walletPubkey ++
       ",\"delegatedPubkey\":" ++ jsonQuote proof.delegatedPubkey ++
       ",\"expiresAt\":" ++ toString proof.expiresAt ++
       ",\"chain\":" ++ jsonQuote proof.chain ++ "\x7d"))


/-- The base58 alphabet used by the `bs58` package (Bitcoin alphabet). -/
def base58Alphabet : List Char :=
  "123456789ABCDEFGHJKLMNPQRSTUVWXYZabcdefghijkmnopqrstuvwxyz".data

/-- Index of a character in a list of characters. -/
def charIdx (c : Char) : List Char → Option Nat
  | [] => none
  | a :: as => if a = c then some 0 else (charIdx c as).map (· + 1)

/-- Big-endian byte decomposition, fuel-bounded so that it reduces inside
the kernel; the fuel argument always suffices in `natToBytes` below. -/
def natToBytesF : Nat → Nat → List Nat
  | 0, _ => []
  | _ + 1, 0 => []
  | fuel + 1, n => natToBytesF fuel (n / 256) ++ [n % 256]

/-- Big-endian byte decomposition of a natural number (empty for zero). -/
def natToBytes (n : Nat) : List Nat := natToBytesF n n

/-- `bs58.decode`: fails on a character outside the alphabet, otherwise
returns the leading-zero bytes (one per leading `1`) followed by the
big-endian bytes of the base-58 value. -/
def bs58Decode (s : String) : Option (List Nat) := do
  let idxs ← s.data.mapM (fun c => charIdx c base58Alphabet)
  let value := idxs.foldl (fun acc i => acc * 58 + i) 0
  let zeros := (s.data.takeWhile (· = '1')).length
  pure (List.replicate zeros 0 ++ natToBytes value)

/-- Decode a string through the `PublicKey` constructor of `@solana/web3.js`:
base58-decode and require exactly 32 bytes, else fail. -/
def publicKeyBytes (s : String) : Option (List Nat) :=
  match bs58Decode s with
  | none => none
  | some bytes => if bytes.length = 32 then some bytes else none

/-- `nacl.sign.detached.verify` from tweetnacl: throws on a signature that is
not 64 bytes or a public key that is not 32 bytes, otherwise consults the
Ed25519 primitive `verify` (message, signature, public key). -/
def naclVerify (verify : List Nat → List Nat → List Nat → Bool)
    (msg sig pub : List Nat) : Except JsError Bool :=
  if sig.length ≠ 64 then .error (.naclSizeError "bad signature size")
  else if pub.length ≠ 32 then .error (.naclSizeError "bad public key size")
  else .ok (verify msg sig pub)

/-- An action code record (`ActionCode` of `src/types.ts`). -/
structure ActionCodeRec where
  code : String
  pubkey : String
  timestamp : Int
  expiresAt : Int
  chain : String
  signature : String
  deriving DecidableEq

/-- A delegated action code: an action code with an embedded delegation
proof (`DelegatedActionCode` of `src/types.ts`). -/
structure DelegatedActionCode extends ActionCodeRec where
  delegationProof : DelegationProof
  deriving DecidableEq

/-- A delegated action code as a JavaScript runtime value, in which the
`delegationProof` property may be `undefined` despite its TypeScript type. -/
structure DelegatedActionCodeJS extends ActionCodeRec where
  delegationProof : Option DelegationProof
  deriving DecidableEq

/-- Code-generation configuration (`CodeGenerationConfig`): code length,
time-to-live in milliseconds, optional clock skew (0 when absent). -/
structure CodeGenerationConfig where
  codeLength : Nat
  ttlMs : Int
  clockSkewMs : Int
  deriving DecidableEq

/-- One year in milliseconds: the bound on how far in the future a
delegation proof may expire (`DelegationStrategy.validateDelegationProof`). -/
def maxFutureMs : Int := 365 * 24 * 60 * 60 * 1000

/-- Test of the regex `^[a-z0-9-]+$` on a chain identifier. -/
def chainCharsOk (s : String) : Bool :=
  s ≠ "" && s.data.all (fun c =>
    (('a' ≤ c && c ≤ 'z') || ('0' ≤ c && c ≤ '9') || c = '-'))

/-- `DelegationStrategy.validateDelegationProof`, check for check in source
order: wallet pubkey present and a valid Solana public key, delegated pubkey
likewise, chain present with length within 1..50 and matching
`^[a-z0-9-]+$`, expiration positive, not more than a year past `now`, not
yet expired (`expiresAt < now` rejects), and signature present with length
within 1..200. -/
def validateDelegationProof (now : Int) (proof : DelegationProof) :
    Except ProtocolError Unit :=
  if proof.walletPubkey = "" then
    .error (.invalidInput "walletPubkey" "Wallet pubkey is required and must be a string")
  else if (publicKeyBytes proof.walletPubkey).isNone then
    .error (.invalidInput "walletPubkey" "Invalid wallet pubkey format")
  else if proof.delegatedPubkey = "" then
    .error (.invalidInput "delegatedPubkey" "Delegated pubkey is required and must be a string")
  else if (publicKeyBytes proof.delegatedPubkey).isNone then
    .error (.invalidInput "delegatedPubkey" "Invalid delegated pubkey format")
  else if proof.chain = "" then
    .error (.invalidInput "chain" "Chain is required and must be a string")
  else if 50 < utf16Len proof.chain then
    .error (.invalidInput "chain" "Chain must be between 1 and 50 characters")
  else if ¬chainCharsOk proof.chain then
    .error (.invalidInput "chain" "Chain contains invalid characters")
  else if proof.expiresAt ≤ 0 then
    .error (.invalidInput "expiresAt" "Expiration time must be positive")
  else if now + maxFutureMs < proof.expiresAt then
    .error (.invalidInput "expiresAt" "Expiration time is too far in the future")
  else if proof.expiresAt < now then
    .error (.expiredCode "Delegation proof has expired" proof.expiresAt now)
  else if proof.signature = "" then
    .error (.invalidInput "signature" "Delegation signature is required and must be a string")
  else if 200 < utf16Len proof.signature then
    .error (.invalidInput "signature" "Delegation signature must be between 1 and 200 characters")
  else
    .ok ()

/-- Modelled from the spec: `WalletStrategy.generateCode`
(src/strategy/WalletStrategy.ts is not part of the corpus; only its
documentation and tests are).  Per spec section 4.4 the strategy extracts
`pubkey` and `windowStart` from the canonical message, derives the digits
from the signature and message through HMAC truncation (abstracted here as
the `deriveCode` primitive), and populates `timestamp = windowStart`,
`expiresAt = windowStart + ttlMs`, `chain` and `signature`.  The canonical
message is represented by its parsed parts per the JSON contract of spec
section 4.2. -/
def generateCode (deriveCode : String → CanonicalMessageParts → String)
    (config : CodeGenerationConfig) (msg : CanonicalMessageParts)
    (chain : String) (signature : String) : ActionCodeRec :=
  { code := deriveCode signature msg
    pubkey := msg.pubkey
    timestamp := msg.windowStart
    expiresAt := msg.windowStart + config.ttlMs
    chain := chain
    signature := signature }

/-- `DelegationStrategy.generateDelegatedCode`: validate the delegation
proof (format and expiration), generate an action code from the canonical
message with the wallet strategy, and attach the proof unchanged. -/
def generateDelegatedCode (deriveCode : String → CanonicalMessageParts → String)
    (config : CodeGenerationConfig) (now : Int) (proof : DelegationProof)
    (msg : CanonicalMessageParts) (chain : String) (signature : String) :
    Except ProtocolError DelegatedActionCode :=
  match validateDelegationProof now proof with
  | .error e => .error e
  | .ok () =>
    .ok { generateCode deriveCode config msg chain signature with
          delegationProof := proof }

/-- `DelegationStrategy.validateDelegatedCode`, check for check in source
order: expiration with clock skew, re-validation of the embedded proof,
pubkey equal to the delegated pubkey, code expiration not after the proof
expiration, proof signature present, and finally base58 decoding and
Ed25519 verification of the delegated signature over the canonical
generation message.  The base58 decode of the delegated pubkey and the
tweetnacl size checks sit outside the try/catch of the source, so their
failures escape as JavaScript errors. -/
def validateDelegatedCode (verify : List Nat → List Nat → List Nat → Bool)
    (config : CodeGenerationConfig) (now : Int) (a : DelegatedActionCode) :
    Except VError Unit :=
  if a.expiresAt + config.clockSkewMs < now then
    .error (.protocol (.expiredCode a.code a.expiresAt now))
  else match validateDelegationProof now a.delegationProof with
  | .error e => .error (.protocol e)
  | .ok () =>
  if a.pubkey ≠ a.delegationProof.delegatedPubkey then
    .error (.protocol (.invalidInput "delegatedPubkey"
      "Action code pubkey does not match delegated signer"))
  else if a.delegationProof.expiresAt < a.expiresAt then
    .error (.protocol (.invalidInput "expiresAt"
      "Action code cannot expire after delegation proof expiration"))
  else if a.delegationProof.signature = "" then
    .error (.protocol (.missingRequiredField "delegationProof.signature"))
  else match serializeCanonical ⟨a.delegationProof.delegatedPubkey, a.timestamp⟩ with
  | .error e => .error (.protocol e)
  | .ok canonicalMessage =>
  match bs58Decode a.signature with
  | none => .error (.protocol (.invalidSignature "Invalid Base58 delegated signature format"))
  | some signatureBytes =>
  match bs58Decode a.delegationProof.delegatedPubkey with
  | none => .error (.js (.base58Error "Non-base58 character"))
  | some delegatedPubkeyBytes =>
  match naclVerify verify canonicalMessage signatureBytes delegatedPubkeyBytes with
  | .error e => .error (.js e)
  | .ok true => .ok ()
  | .ok false => .error (.protocol (.invalidSignature "Delegated signature verification failed"))

/-- The cryptographic tail of `SolanaAdapter.verifyWithWallet`: everything
inside its try/catch.  Returns the boolean outcome paired with the number
of Ed25519 verifications performed; every caught failure yields
`(false, 0)`. -/
def verifyWithWalletTail (verify : List Nat → List Nat → List Nat → Bool)
    (a : ActionCodeRec) : Bool × Nat :=
  match serializeCanonical ⟨a.pubkey, a.timestamp⟩ with
  | .error _ => (false, 0)
  | .ok message =>
  match publicKeyBytes a.pubkey with
  | none => (false, 0)
  | some pubBytes =>
  match bs58Decode a.signature with
  | none => (false, 0)
  | some sigBytes =>
  if sigBytes.length ≠ 64 ∨ pubBytes.length ≠ 32 then (false, 0)
  else (verify message sigBytes pubBytes, 1)

/-- `SolanaAdapter.verifyWithWallet`, instrumented with the number of
Ed25519 verifications performed.  The early structural checks (chain name,
truthiness of `pubkey`, `timestamp`, `signature`) return `false` before any
cryptographic work; all failures inside the try/catch map to `false`. -/
def verifyWithWallet (verify : List Nat → List Nat → List Nat → Bool)
    (a : ActionCodeRec) : Bool × Nat :=
  if a.chain ≠ "solana" then (false, 0)
  else if a.pubkey = "" ∨ a.timestamp = 0 ∨ a.signature = "" then (false, 0)
  else verifyWithWalletTail verify a

/-- The cryptographic tail of `SolanaAdapter.verifyRevokeWithWallet`. -/
def verifyRevokeWithWalletTail (verify : List Nat → List Nat → List Nat → Bool)
    (codeHashFn : String → String) (a : ActionCodeRec)
    (revokeSignature : String) : Bool × Nat :=
  match serializeCanonicalRevoke ⟨a.pubkey, codeHashFn a.code, a.timestamp⟩ with
  | .error _ => (false, 0)
  | .ok message =>
  match publicKeyBytes a.pubkey with
  | none => (false, 0)
  | some pubBytes =>
  match bs58Decode revokeSignature with
  | none => (false, 0)
  | some sigBytes =>
  if sigBytes.length ≠ 64 ∨ pubBytes.length ≠ 32 then (false, 0)
  else (verify message sigBytes pubBytes, 1)

/-- `SolanaAdapter.verifyRevokeWithWallet`, instrumented with the number of
Ed25519 verifications performed.  `codeHashFn` abstracts `codeHash` (the
Crockford base32 of the first 80 bits of SHA-256). -/
def verifyRevokeWithWallet (verify : List Nat → List Nat → List Nat → Bool)
    (codeHashFn : String → String) (a : ActionCodeRec)
    (revokeSignature : String) : Bool × Nat :=
  if a.chain ≠ "solana" then (false, 0)
  else if a.pubkey = "" ∨ a.timestamp = 0 ∨ revokeSignature = "" then (false, 0)
  else verifyRevokeWithWalletTail verify codeHashFn a revokeSignature

/-- The cryptographic tail of `SolanaAdapter.verifyWithDelegation`: both
Ed25519 verifications are performed once the length checks pass, with no
early exit between them. -/
def verifyWithDelegationTail (verify : List Nat → List Nat → List Nat → Bool)
    (proof : DelegationProof) (delegatedSig : String)
    (delegatedMsg : CanonicalMessageParts) : Bool × Nat :=
  match serializeDelegationProof proof with
  | .error _ => (false, 0)
  | .ok delegationMessage =>
  match publicKeyBytes proof.walletPubkey with
  | none => (false, 0)
  | some walletPubBytes =>
  match bs58Decode proof.signature with
  | none => (false, 0)
  | some walletSigBytes =>
  match serializeCanonical delegatedMsg with
  | .error _ => (false, 0)
  | .ok canonicalMessage =>
  match publicKeyBytes proof.delegatedPubkey with
  | none => (false, 0)
  | some delegatedPubBytes =>
  match bs58Decode delegatedSig with
  | none => (false, 0)
  | some delegatedSigBytes =>
  if walletSigBytes.length ≠ 64 ∨ walletPubBytes.length ≠ 32 then (false, 0)
  else if delegatedSigBytes.length ≠ 64 ∨ delegatedPubBytes.length ≠ 32 then (false, 0)
  else
    (verify delegationMessage walletSigBytes walletPubBytes &&
     verify canonicalMessage delegatedSigBytes delegatedPubBytes, 2)

/-- `SolanaAdapter.verifyWithDelegation`, instrumented with the number of
Ed25519 verifications performed.  The source reads
`delegatedActionCode.delegationProof.walletPubkey` without first checking
that `delegationProof` is defined and outside the try/catch, so an
undefined proof raises a `TypeError` that escapes the function. -/
def verifyWithDelegation (verify : List Nat → List Nat → List Nat → Bool)
    (now : Int) (a : DelegatedActionCodeJS) : Except JsError (Bool × Nat) :=
  if a.chain ≠ "solana" then .ok (false, 0)
  else if a.pubkey = "" ∨ a.timestamp = 0 ∨ a.signature = "" then .ok (false, 0)
  else match a.delegationProof with
  | none => .error (.typeError "Cannot read properties of undefined")
  | some proof =>
  if proof.walletPubkey = "" ∨ proof.delegatedPubkey = "" ∨ proof.chain = "" ∨
      proof.expiresAt = 0 ∨ proof.signature = "" then .ok (false, 0)
  else if proof.chain ≠ "solana" then .ok (false, 0)
  else if a.pubkey ≠ proof.delegatedPubkey then .ok (false, 0)
  else if proof.expiresAt < now then .ok (false, 0)
  else .ok (verifyWithDelegationTail verify proof a.signature
    ⟨proof.delegatedPubkey, a.timestamp⟩)

/-- The cryptographic tail of `SolanaAdapter.verifyRevokeWithDelegation`. -/
def verifyRevokeWithDelegationTail (verify : List Nat → List Nat → List Nat → Bool)
    (codeHashFn : String → String) (proof : DelegationProof)
    (a : ActionCodeRec) (revokeSignature : String) : Bool × Nat :=
  match serializeDelegationProof proof with
  | .error _ => (false, 0)
  | .ok delegationMessage =>
  match publicKeyBytes proof.walletPubkey with
  | none => (false, 0)
  | some walletPubBytes =>
  match bs58Decode proof.signature with
  | none => (false, 0)
  | some walletSigBytes =>
  match serializeCanonicalRevoke
      ⟨proof.delegatedPubkey, codeHashFn a.code, a.timestamp⟩ with
  | .error _ => (false, 0)
  | .ok revokeMessage =>
  match publicKeyBytes proof.delegatedPubkey with
  | none => (false, 0)
  | some delegatedPubBytes =>
  match bs58Decode revokeSignature with
  | none => (false, 0)
  | some delegatedSigBytes =>
  if walletSigBytes.length ≠ 64 ∨ walletPubBytes.length ≠ 32 then (false, 0)
  else if delegatedSigBytes.length ≠ 64 ∨ delegatedPubBytes.length ≠ 32 then (false, 0)
  else
    (verify delegationMessage walletSigBytes walletPubBytes &&
     verify revokeMessage delegatedSigBytes delegatedPubBytes, 2)

/-- `SolanaAdapter.verifyRevokeWithDelegation`, instrumented with the
number of Ed25519 verifications performed.  Unlike `verifyWithDelegation`,
this function guards the truthiness of `delegationProof` before reading
its properties, so an undefined proof returns `false`. -/
def verifyRevokeWithDelegation (verify : List Nat → List Nat → List Nat → Bool)
    (codeHashFn : String → String) (now : Int) (a : DelegatedActionCodeJS)
    (revokeSignature : String) : Bool × Nat :=
  if a.chain ≠ "solana" then (false, 0)
  else if a.pubkey = "" ∨ a.timestamp = 0 ∨ a.signature = "" ∨
      a.delegationProof = none then (false, 0)
  else match a.delegationProof with
  | none => (false, 0)
  | some proof =>
  if proof.walletPubkey = "" ∨ proof.delegatedPubkey = "" ∨ proof.chain = "" ∨
      proof.expiresAt = 0 ∨ proof.signature = "" then (false, 0)
  else if proof.chain ≠ "solana" then (false, 0)
  else if a.pubkey ≠ proof.delegatedPubkey then (false, 0)
  else if proof.expiresAt < now then (false, 0)
  else verifyRevokeWithDelegationTail verify codeHashFn proof a.toActionCodeRec
    revokeSignature

/-- Protocol meta fields (`ProtocolMetaFields` of `src/utils/protocolMeta.ts`). -/
structure ProtocolMetaFields where
  ver : Int
  id : String
  int : String
  iss : Option String
  deriving DecidableEq

/-- `SolanaAdapter.verifyTransactionMatchesCode`: the transaction is
represented by the result of `this.parseMeta` on it (`none` when no memo
instruction parses as protocol meta).  Check order follows the source:
expiration first, then meta presence, then `ver`, `id` (against the code
hash) and `int` (against the action code pubkey). -/
def verifyTransactionMatchesCode (codeHashFn : String → String) (now : Int)
    (a : ActionCodeRec) (parsedMeta : Option ProtocolMetaFields) :
    Except ProtocolError Unit :=
  if a.expiresAt < now then
    .error (.expiredCode a.code a.expiresAt now)
  else match parsedMeta with
  | none => .error .missingMeta
  | some m =>
    if m.ver ≠ 2 then .error (.metaMismatch "2" (toString m.ver) "ver")
    else if m.id ≠ codeHashFn a.code then
      .error (.metaMismatch (codeHashFn a.code) m.id "id")
    else if m.int ≠ a.pubkey then
      .error (.metaMismatch a.pubkey m.int "int")
    else .ok ()

/-- Header of a Solana `MessageV0`. -/
structure MessageHeader where
  numRequiredSignatures : Nat
  numReadonlySignedAccounts : Nat
  numReadonlyUnsignedAccounts : Nat
  deriving DecidableEq

/-- A compiled instruction of a Solana `MessageV0`. -/
structure CompiledInstruction where
  programIdIndex : Nat
  accountKeyIndexes : List Nat
  data : List Nat
  deriving DecidableEq

/-- An address-table lookup entry of a Solana `MessageV0`. -/
structure AddressTableLookup where
  accountKey : String
  writableIndexes : List Nat
  readonlyIndexes : List Nat
  deriving DecidableEq

/-- A Solana `MessageV0` (account keys as base58 strings). -/
structure MessageV0 where
  header : MessageHeader
  staticAccountKeys : List String
  recentBlockhash : String
  compiledInstructions : List CompiledInstruction
  addressTableLookups : List AddressTableLookup
  deriving DecidableEq

/-- A Solana versioned transaction: a `MessageV0` plus its signature list
(64-byte signatures). -/
structure VersionedTransaction where
  message : MessageV0
  signatures : List (List Nat)
  deriving DecidableEq

/-- The SPL memo program id, base58. -/
def memoProgramId : String := "MemoSq4gqABAXKb96qnH8TysNcWxMyWCqXgDLGmfcHr"

/-- Index of a key in a list of keys (`findIndex`, defaulting as the source
does to the appended position when absent, which cannot happen after the
push). -/
def keyIndex (k : String) : List String → Nat
  | [] => 0
  | a :: as => if a = k then 0 else keyIndex k as + 1

/-- A 64-byte all-zero signature. -/
def zeroSignature : List Nat := List.replicate 64 0

/-- The message rewrite of the simple case of
`SolanaAdapter.attachProtocolMeta` (no address-table lookups in play): the
memo program key is appended to the static keys when absent, and the memo
instruction is appended referencing it, with header, blockhash, existing
instructions and lookups unchanged. -/
def attachSimpleMessage (msg : MessageV0) (metaIxData : List Nat) : MessageV0 :=
  { header := msg.header
    staticAccountKeys :=
      if msg.staticAccountKeys.contains memoProgramId then msg.staticAccountKeys
      else msg.staticAccountKeys ++ [memoProgramId]
    recentBlockhash := msg.recentBlockhash
    compiledInstructions := msg.compiledInstructions ++
      [⟨keyIndex memoProgramId
          (if msg.staticAccountKeys.contains memoProgramId then msg.staticAccountKeys
           else msg.staticAccountKeys ++ [memoProgramId]), [], metaIxData⟩]
    addressTableLookups := msg.addressTableLookups }

/-- `SolanaAdapter.attachProtocolMeta`, versioned-transaction branch.
`hasMeta` abstracts `getProtocolMeta` (whether some memo instruction of the
transaction parses as protocol meta), `recompile` abstracts the
decompile/recompile round trip through resolved address lookup tables, and
`hasConnection` records whether a connection capability was supplied.  The
function refuses when meta is already present, requires a connection in the
lookup-table case, rewrites the message, and sets the signature list of the
result to fresh zero-filled signatures, one per required signature of the
rewritten message, discarding the input signatures. -/
def attachProtocolMeta (hasMeta : VersionedTransaction → Bool)
    (recompile : MessageV0 → List Nat → MessageV0) (hasConnection : Bool)
    (metaIxData : List Nat) (tx : VersionedTransaction) :
    Except ProtocolError VersionedTransaction :=
  if hasMeta tx then
    .error (.invalidTransactionFormat
      "Transaction already contains protocol meta. Cannot attach additional protocol meta.")
  else if tx.message.addressTableLookups.length ≠ 0 ∧
      tx.message.compiledInstructions.any (fun ix =>
        ix.accountKeyIndexes.any (fun idx =>
          tx.message.staticAccountKeys.length ≤ idx)) then
    if ¬hasConnection then
      .error (.invalidTransactionFormat
        "Connection required: Transaction uses address lookup tables")
    else
      .ok { message := recompile tx.message metaIxData
            signatures := List.replicate
              (recompile tx.message metaIxData).header.numRequiredSignatures
              zeroSignature }
  else
    .ok { message := attachSimpleMessage tx.message metaIxData
          signatures := List.replicate
            (attachSimpleMessage tx.message metaIxData).header.numRequiredSignatures
            zeroSignature }

/-- Modelled from the spec: the `SUPPORTED_CHAINS` constant of
`src/constants.ts` (not part of the corpus).  Per spec section 6 the
supported set is a closed set known to the facade, initially containing
only the chain identifier "solana". -/
def supportedChain (chain : String) : Bool := chain = "solana"

/-- The adapter registry of an `ActionCodesProtocol` instance: a mutable
record from chain identifier to adapter, written by `registerAdapter`. -/
structure Protocol (α : Type) where
  adapters : List (String × α)

/-- `ActionCodesProtocol.registerAdapter`: store the adapter under the
chain key (later registrations shadow earlier ones). -/
def registerAdapter {α : Type} (p : Protocol α) (chain : String) (adapter : α) :
    Protocol α :=
  ⟨(chain, adapter) :: p.adapters⟩

/-- `ActionCodesProtocol.getAdapter`: look up a registered adapter. -/
def getAdapter {α : Type} (p : Protocol α) (chain : String) : Option α :=
  (p.adapters.find? (fun kv => kv.1 = chain)).map (·.2)

/-- Strategy selector plus per-strategy input of
`ActionCodesProtocol.generate`. -/
inductive GenerateInput where
  | wallet (pubkey : String)
  | delegation (proof : DelegationProof)

/-- `ActionCodesProtocol.generate`: reject a chain outside
`SUPPORTED_CHAINS` with `INVALID_ADAPTER` (the adapter registry `p` plays
no part in this guard), build the canonical message for the wallet pubkey
or for the delegated pubkey of the proof, obtain a signature from the
injected `signFn` capability (an empty result fails with
`INVALID_SIGNATURE`), and delegate to the wallet or delegation strategy. -/
def protocolGenerate {α : Type} (p : Protocol α)
    (deriveCode : String → CanonicalMessageParts → String)
    (config : CodeGenerationConfig) (now : Int) (input : GenerateInput)
    (chain : String) (signFn : List Nat → String → String) :
    Except ProtocolError (ActionCodeRec ⊕ DelegatedActionCode) :=
  if chain = "" ∨ ¬supportedChain chain then .error (.invalidAdapter chain)
  else match input with
  | .wallet pubkey =>
    match serializeCanonical ⟨pubkey, now⟩ with
    | .error e => .error e
    | .ok canonical =>
      let signature := signFn canonical chain
      if signature = "" then
        .error (.invalidSignature "Missing signature over canonical message")
      else
        .ok (.inl (generateCode deriveCode config ⟨pubkey, now⟩ chain signature))
  | .delegation proof =>
    match serializeCanonical ⟨proof.delegatedPubkey, now⟩ with
    | .error e => .error e
    | .ok canonical =>
      let signature := signFn canonical chain
      if signature = "" then
        .error (.invalidSignature "Missing delegated signature")
      else
        match generateDelegatedCode deriveCode config now proof
            ⟨proof.delegatedPubkey, now⟩ chain signature with
        | .error e => .error e
        | .ok code => .ok (.inr code)

/-- A revoke record: the action code augmented with the revoke signature. -/
structure ActionCodeRevoke extends ActionCodeRec where
  revokeSignature : String
  deriving DecidableEq

/-- `ActionCodesProtocol.revoke` (wallet branch; the delegation branch
differs only in signing over the delegated pubkey): reject a chain outside
`SUPPORTED_CHAINS` with `INVALID_ADAPTER`, build the canonical revoke
message, obtain the revoke signature from `signFn`, and return the record
augmented with it. -/
def protocolRevoke {α : Type} (p : Protocol α) (codeHashFn : String → String)
    (a : ActionCodeRec) (chain : String)
    (signFn : List Nat → String → String) : Except ProtocolError ActionCodeRevoke :=
  if chain = "" ∨ ¬supportedChain chain then .error (.invalidAdapter chain)
  else match serializeCanonicalRevoke ⟨a.pubkey, codeHashFn a.code, a.timestamp⟩ with
  | .error e => .error e
  | .ok canonical =>
    let signature := signFn canonical chain
    if signature = "" then
      .error (.invalidSignature "Missing signature over canonical message")
    else
      .ok { a with revokeSignature := signature }

/-- Test of the code format regex of spec section 4.4: `^[0-9]{N}$` with N
the configured code length. -/
def matchesCodeFormat (n : Nat) (s : String) : Bool :=
  s.data.length = n && s.data.all (fun c => '0' ≤ c && c ≤ '9')

/-- Whether a validation outcome is an `INVALID_CODE_FORMAT` rejection. -/
def isCodeFormatError : VError → Bool
  | .protocol (.invalidCodeFormat _) => true
  | _ => false

/-- Two strings with equal character lists are equal. -/
theorem stringDataExt (s t : String) (h : s.data = t.data) : s = t := by
  cases s; cases t; exact congrArg String.mk h

/-- String concatenation is associative. -/
theorem stringAppendAssoc (a b c : String) : a ++ b ++ c = a ++ (b ++ c) := by
  apply stringDataExt
  simp [String.data_append, List.append_assoc]

/-- A character the canonical-serializer guard accepts is emitted verbatim
by the `JSON.stringify` escaper. -/
theorem jsonEscapeChar_of_safe (c : Char) (h : isJsonUnsafeChar c = false) :
    jsonEscapeChar c = [c] := by
  unfold isJsonUnsafeChar at h
  simp only [Bool.or_eq_false_iff, Bool.and_eq_false_iff, decide_eq_false_iff_not,
    not_le] at h
  obtain ⟨⟨⟨hq, hb⟩, hc0⟩, _⟩ := h
  unfold jsonEscapeChar
  rw [if_neg (by simpa using hq), if_neg (by simpa using hb)]
  rw [if_neg (fun he => by subst he; exact absurd hc0 (by decide))]
  rw [if_neg (fun he => by subst he; exact absurd hc0 (by decide))]
  rw [if_neg (fun he => by subst he; exact absurd hc0 (by decide))]
  rw [if_neg (fun he => by subst he; exact absurd hc0 (by decide))]
  rw [if_neg (fun he => by subst he; exact absurd hc0 (by decide))]
  rw [if_neg (by omega)]

/-- A character list the guard accepts passes through the escaper
unchanged. -/
theorem flattenEscape_of_safe (cs : List Char) (h : cs.any isJsonUnsafeChar = false) :
    (cs.map jsonEscapeChar).flatten = cs := by
  induction cs with
  | nil => rfl
  | cons c cs ih =>
    simp only [List.any_cons, Bool.or_eq_false_iff] at h
    simp [jsonEscapeChar_of_safe c h.1, ih h.2]

/-- A string the guard accepts passes through the escaper unchanged. -/
theorem jsonQuote_of_safe (s : String) (h : hasJsonUnsafeChar s = false) :
    jsonQuote s = "\"" ++ s ++ "\"" := by
  apply stringDataExt
  simp only [jsonQuote, String.data_append, flattenEscape_of_safe s.data h]
  rfl

/-- C1: for every pubkey string that is non-empty, at most 100 characters,
and free of double quotes, backslashes and C0/C1 control characters, and
every window-start number, `serializeCanonical` returns exactly the UTF-8
bytes of the JSON object with keys `id`, `ver`, `pubkey`, `windowStart` in
that order; for every pubkey violating one of those conditions it fails
with a typed `INVALID_INPUT` error. -/
theorem serializeCanonical_spec (P : String) (T : Int) :
    (P ≠ "" → utf16Len P ≤ 100 → hasJsonUnsafeChar P = false →
      serializeCanonical ⟨P, T⟩ =
        .ok (utf8Encode ("\x7b\"id\":\"actioncodes\",\"ver\":1,\"pubkey\":" ++ "\"" ++ P ++
          "\"" ++ ",\"windowStart\":" ++ toString T ++ "\x7d"))) ∧
    ((P = "" ∨ 100 < utf16Len P ∨ hasJsonUnsafeChar P = true) →
      ∃ d, serializeCanonical ⟨P, T⟩ = .error (.invalidInput "pubkey" d)) := by
  constructor
  · intro hne hlen hsafe
    unfold serializeCanonical
    rw [if_neg hne, if_neg (by simp only [not_lt]; exact hlen), if_neg (by simp [hsafe])]
    rw [jsonQuote_of_safe P hsafe]
    simp only [stringAppendAssoc]
  · intro hbad
    unfold serializeCanonical
    rcases hbad with h | h | h
    · exact ⟨_, by rw [if_pos h]⟩
    · by_cases he : P = ""
      · exact ⟨_, by rw [if_pos he]⟩
      · exact ⟨_, by rw [if_neg he, if_pos h]⟩
    · by_cases he : P = ""
      · exact ⟨_, by rw [if_pos he]⟩
      · by_cases hl : 100 < utf16Len P
        · exact ⟨_, by rw [if_neg he, if_pos hl]⟩
        · exact ⟨_, by rw [if_neg he, if_neg hl, if_pos h]⟩

/-- Witness for C1 at the concrete pubkey of scenario 1 of the spec and a
concrete window start. -/
theorem serializeCanonical_spec_witness :
    serializeCanonical ⟨"2wyVnSw6j9omfqRixz37S2sU72rFTheQeUjDfXhAQJvf", 1759737720000⟩ =
      .ok (utf8Encode ("\x7b\"id\":\"actioncodes\",\"ver\":1,\"pubkey\":" ++ "\"" ++
        "2wyVnSw6j9omfqRixz37S2sU72rFTheQeUjDfXhAQJvf" ++
        "\"" ++ ",\"windowStart\":" ++ toString (1759737720000 : Int) ++ "\x7d")) :=
  (serializeCanonical_spec "2wyVnSw6j9omfqRixz37S2sU72rFTheQeUjDfXhAQJvf"
    1759737720000).1 (by decide) (by decide) (by decide)

/-- C2: `verifyTransactionMatchesCode` succeeds exactly when the parsed
meta exists with version 2, id equal to the code hash, intent owner equal
to the action code pubkey, and the code is not expired; failures are
`EXPIRED_CODE` when past expiration, `MISSING_META` when no meta parses,
and otherwise `META_MISMATCH` naming the first offending field among
`ver`, `id`, `int`. -/
theorem verifyTransactionMatchesCode_spec (codeHashFn : String → String)
    (now : Int) (a : ActionCodeRec) (parsedMeta : Option ProtocolMetaFields) :
    (verifyTransactionMatchesCode codeHashFn now a parsedMeta = .ok () ↔
      ∃ m, parsedMeta = some m ∧ m.ver = 2 ∧ m.id = codeHashFn a.code ∧
        m.int = a.pubkey ∧ now ≤ a.expiresAt) ∧
    (a.expiresAt < now →
      verifyTransactionMatchesCode codeHashFn now a parsedMeta =
        .error (.expiredCode a.code a.expiresAt now)) ∧
    (now ≤ a.expiresAt → parsedMeta = none →
      verifyTransactionMatchesCode codeHashFn now a parsedMeta =
        .error .missingMeta) ∧
    (∀ m, now ≤ a.expiresAt → parsedMeta = some m →
      (m.ver ≠ 2 →
        verifyTransactionMatchesCode codeHashFn now a parsedMeta =
          .error (.metaMismatch "2" (toString m.ver) "ver")) ∧
      (m.ver = 2 → m.id ≠ codeHashFn a.code →
        verifyTransactionMatchesCode codeHashFn now a parsedMeta =
          .error (.metaMismatch (codeHashFn a.code) m.id "id")) ∧
      (m.ver = 2 → m.id = codeHashFn a.code → m.int ≠ a.pubkey →
        verifyTransactionMatchesCode codeHashFn now a parsedMeta =
          .error (.metaMismatch a.pubkey m.int "int"))) := by
  unfold verifyTransactionMatchesCode
  by_cases hexp : a.expiresAt < now
  · rw [if_pos hexp]
    refine ⟨?_, fun _ => rfl, fun hle _ => absurd hexp (by omega),
      fun m hle _ => absurd hexp (by omega)⟩
    refine iff_of_false (by simp) ?_
    rintro ⟨m, _, _, _, _, hle⟩
    exact absurd hexp (by omega)
  · rw [if_neg hexp]
    rcases parsedMeta with _ | m
    · refine ⟨iff_of_false (by simp) ?_, fun h => absurd h hexp, fun _ _ => rfl, ?_⟩
      · rintro ⟨m, hm, _⟩
        exact Option.noConfusion hm
      · intro m _ hm
        exact Option.noConfusion hm
    · refine ⟨?_, fun h => absurd h hexp, by simp, ?_⟩
      · by_cases hv : m.ver = 2
        · by_cases hid : m.id = codeHashFn a.code
          · by_cases hint : m.int = a.pubkey
            · simp only [if_neg (not_not_intro hv), if_neg (not_not_intro hid),
                if_neg (not_not_intro hint)]
              exact iff_of_true trivial ⟨m, rfl, hv, hid, hint, by omega⟩
            · refine iff_of_false (by simp [hv, hid, hint]) ?_
              rintro ⟨m2, hm, _, _, h4, _⟩
              cases hm
              exact hint h4
          · refine iff_of_false (by simp [hv, hid]) ?_
            rintro ⟨m2, hm, _, h3, _, _⟩
            cases hm
            exact hid h3
        · refine iff_of_false (by simp [hv]) ?_
          rintro ⟨m2, hm, h2, _, _, _⟩
          cases hm
          exact hv h2
      · intro m2 _ hm
        cases hm
        refine ⟨fun hv => by simp [hv], fun hv hid => by simp [hv, hid],
          fun hv hid hint => by simp [hv, hid, hint]⟩

/-- Witness for C2: the success case at a concrete action code and meta. -/
theorem verifyTransactionMatchesCode_spec_witness :
    verifyTransactionMatchesCode (fun _ => "H8MN") 10
      { code := "12345678", pubkey := "PK", timestamp := 0, expiresAt := 20,
        chain := "solana", signature := "S" }
      (some { ver := 2, id := "H8MN", int := "PK", iss := none }) = .ok () := by
  have h := (verifyTransactionMatchesCode_spec (fun _ => "H8MN") 10
    { code := "12345678", pubkey := "PK", timestamp := 0, expiresAt := 20,
      chain := "solana", signature := "S" }
    (some { ver := 2, id := "H8MN", int := "PK", iss := none })).1
  exact h.mpr ⟨_, rfl, rfl, rfl, rfl, by decide⟩

/-- The canonical serializer only reports the `pubkey` field, never
`expiresAt`. -/
theorem serializeCanonical_error_field (parts : CanonicalMessageParts) (d : String) :
    serializeCanonical parts ≠ .error (.invalidInput "expiresAt" d) := by
  intro h
  unfold serializeCanonical at h
  repeat' split at h
  all_goals simp_all

/-- Proof validation never produces the outlives-rule error message (its
own `expiresAt` rejections carry different details). -/
theorem validateDelegationProof_not_outlives (now : Int) (p : DelegationProof) :
    validateDelegationProof now p ≠ .error (.invalidInput "expiresAt"
      "Action code cannot expire after delegation proof expiration") := by
  intro h
  unfold validateDelegationProof at h
  by_cases c1 : p.walletPubkey = ""
  · rw [if_pos c1] at h
    simp at h
  rw [if_neg c1] at h
  by_cases c2 : (publicKeyBytes p.walletPubkey).isNone = true
  · rw [if_pos c2] at h
    simp at h
  rw [if_neg c2] at h
  by_cases c3 : p.delegatedPubkey = ""
  · rw [if_pos c3] at h
    simp at h
  rw [if_neg c3] at h
  by_cases c4 : (publicKeyBytes p.delegatedPubkey).isNone = true
  · rw [if_pos c4] at h
    simp at h
  rw [if_neg c4] at h
  by_cases c5 : p.chain = ""
  · rw [if_pos c5] at h
    simp at h
  rw [if_neg c5] at h
  by_cases c6 : 50 < utf16Len p.chain
  · rw [if_pos c6] at h
    simp at h
  rw [if_neg c6] at h
  by_cases c7 : ¬ chainCharsOk p.chain = true
  · rw [if_pos c7] at h
    simp at h
  rw [if_neg c7] at h
  by_cases c8 : p.expiresAt ≤ 0
  · rw [if_pos c8] at h
    simp at h
  rw [if_neg c8] at h
  by_cases c9 : now + maxFutureMs < p.expiresAt
  · rw [if_pos c9] at h
    simp at h
  rw [if_neg c9] at h
  by_cases c10 : p.expiresAt < now
  · rw [if_pos c10] at h
    simp at h
  rw [if_neg c10] at h
  by_cases c11 : p.signature = ""
  · rw [if_pos c11] at h
    simp at h
  rw [if_neg c11] at h
  by_cases c12 : 200 < utf16Len p.signature
  · rw [if_pos c12] at h
    simp at h
  rw [if_neg c12] at h
  simp at h

/-- C3: a delegated action code that expires after its delegation proof is
always rejected; when the prior checks pass (not expired, proof valid,
pubkey bound to the delegated key) the rejection is the typed
`INVALID_INPUT` outlives error; and a code with
`expiresAt ≤ proof.expiresAt` is never rejected with that error. -/
theorem validateDelegatedCode_outlives (verify : List Nat → List Nat → List Nat → Bool)
    (config : CodeGenerationConfig) (now : Int) (a : DelegatedActionCode) :
    (a.delegationProof.expiresAt < a.expiresAt →
      validateDelegatedCode verify config now a ≠ .ok ()) ∧
    (a.delegationProof.expiresAt < a.expiresAt →
      ¬(a.expiresAt + config.clockSkewMs < now) →
      validateDelegationProof now a.delegationProof = .ok () →
      a.pubkey = a.delegationProof.delegatedPubkey →
      validateDelegatedCode verify config now a =
        .error (.protocol (.invalidInput "expiresAt"
          "Action code cannot expire after delegation proof expiration"))) ∧
    (a.expiresAt ≤ a.delegationProof.expiresAt →
      validateDelegatedCode verify config now a ≠
        .error (.protocol (.invalidInput "expiresAt"
          "Action code cannot expire after delegation proof expiration"))) := by
  refine ⟨?_, ?_, ?_⟩
  · intro hlt h
    unfold validateDelegatedCode at h
    repeat' split at h
    all_goals simp_all
  · intro hlt hexp hvp hpk
    unfold validateDelegatedCode
    rw [if_neg hexp, hvp]
    simp only [if_neg (not_not_intro hpk), if_pos hlt]
  · intro hle h
    unfold validateDelegatedCode at h
    by_cases c1 : a.expiresAt + config.clockSkewMs < now
    · rw [if_pos c1] at h
      simp at h
    · rw [if_neg c1] at h
      cases hvp : validateDelegationProof now a.delegationProof with
      | error e =>
        simp only [hvp, Except.error.injEq, VError.protocol.injEq] at h
        exact validateDelegationProof_not_outlives now a.delegationProof (h ▸ hvp)
      | ok u =>
        cases u
        simp only [hvp] at h
        by_cases c2 : a.pubkey ≠ a.delegationProof.delegatedPubkey
        · rw [if_pos c2] at h
          simp at h
        · rw [if_neg c2] at h
          by_cases c3 : a.delegationProof.expiresAt < a.expiresAt
          · omega
          · rw [if_neg c3] at h
            by_cases c4 : a.delegationProof.signature = ""
            · rw [if_pos c4] at h
              simp at h
            · rw [if_neg c4] at h
              cases hsc : serializeCanonical
                  ⟨a.delegationProof.delegatedPubkey, a.timestamp⟩ with
              | error e2 =>
                simp only [hsc, Except.error.injEq, VError.protocol.injEq] at h
                exact serializeCanonical_error_field _ _ (h ▸ hsc)
              | ok msg =>
                simp only [hsc] at h
                cases hb1 : bs58Decode a.signature with
                | none => simp [hb1] at h
                | some sb =>
                  simp only [hb1] at h
                  cases hb2 : bs58Decode a.delegationProof.delegatedPubkey with
                  | none => simp [hb2] at h
                  | some pb =>
                    simp only [hb2] at h
                    cases hnv : naclVerify verify msg sb pb with
                    | error e3 => simp [hnv] at h
                    | ok b =>
                      simp only [hnv] at h
                      cases b <;> simp at h

/-- Witness for C3: the outlives rejection at a concrete delegated code
whose other checks pass. -/
theorem validateDelegatedCode_outlives_witness :
    validateDelegatedCode (fun _ _ _ => true) ⟨8, 120000, 0⟩ 500
      { code := "12345678", pubkey := "11111111111111111111111111111111",
        timestamp := 1, expiresAt := 2000, chain := "solana", signature := "s",
        delegationProof :=
          { walletPubkey := "11111111111111111111111111111111",
            delegatedPubkey := "11111111111111111111111111111111",
            chain := "solana", expiresAt := 1000, signature := "s" } } =
      .error (.protocol (.invalidInput "expiresAt"
        "Action code cannot expire after delegation proof expiration")) :=
  (validateDelegatedCode_outlives (fun _ _ _ => true) ⟨8, 120000, 0⟩ 500
    { code := "12345678", pubkey := "11111111111111111111111111111111",
      timestamp := 1, expiresAt := 2000, chain := "solana", signature := "s",
      delegationProof :=
        { walletPubkey := "11111111111111111111111111111111",
          delegatedPubkey := "11111111111111111111111111111111",
          chain := "solana", expiresAt := 1000, signature := "s" } }).2.1
    (by decide) (by decide) rfl rfl

/-- The checks of `validateDelegationProof` that precede its expiration
checks: both pubkeys present and valid, chain present, within length, and
matching its character class. -/
def delegationProofStructuralOk (p : DelegationProof) : Prop :=
  p.walletPubkey ≠ "" ∧ (publicKeyBytes p.walletPubkey).isNone = false ∧
  p.delegatedPubkey ≠ "" ∧ (publicKeyBytes p.delegatedPubkey).isNone = false ∧
  p.chain ≠ "" ∧ utf16Len p.chain ≤ 50 ∧ chainCharsOk p.chain = true

/-- C8 counterexample: a delegation proof whose `expiresAt` equals `now`
exactly is accepted by proof validation and by `generateDelegatedCode`,
although the claim requires `expiresAt > now` (rejection with
`EXPIRED_CODE`): the source rejects only when `expiresAt < now`. -/
theorem validateDelegationProof_boundary_counterexample :
    validateDelegationProof 1000
      { walletPubkey := "11111111111111111111111111111111",
        delegatedPubkey := "11111111111111111111111111111111",
        chain := "solana", expiresAt := 1000, signature := "s" } = .ok () ∧
    generateDelegatedCode (fun _ _ => "00000000") ⟨8, 120000, 0⟩ 1000
      { walletPubkey := "11111111111111111111111111111111",
        delegatedPubkey := "11111111111111111111111111111111",
        chain := "solana", expiresAt := 1000, signature := "s" }
      ⟨"11111111111111111111111111111111", 1000⟩ "solana" "sig" =
      .ok { code := "00000000", pubkey := "11111111111111111111111111111111",
            timestamp := 1000, expiresAt := 121000, chain := "solana",
            signature := "sig",
            delegationProof :=
              { walletPubkey := "11111111111111111111111111111111",
                delegatedPubkey := "11111111111111111111111111111111",
                chain := "solana", expiresAt := 1000, signature := "s" } } ∧
    ¬((1000 : Int) < 1000) :=
  ⟨rfl, rfl, by decide⟩

/-- C8 as amended: whenever a delegation proof is used, validation accepts
only proofs with `now ≤ expiresAt ≤ now + 365 days`; once the structural
checks pass, a proof with `expiresAt < now` is rejected with
`EXPIRED_CODE` and one with `expiresAt > now + 365 days` with
`INVALID_INPUT`; and both `generateDelegatedCode` and
`validateDelegatedCode` propagate these proof-validation errors. -/
theorem validateDelegationProof_expiry (now : Int) (p : DelegationProof) :
    (validateDelegationProof now p = .ok () →
      now ≤ p.expiresAt ∧ p.expiresAt ≤ now + maxFutureMs) ∧
    (delegationProofStructuralOk p → 0 < p.expiresAt → p.expiresAt < now →
      validateDelegationProof now p =
        .error (.expiredCode "Delegation proof has expired" p.expiresAt now)) ∧
    (delegationProofStructuralOk p → 0 < p.expiresAt →
      now + maxFutureMs < p.expiresAt →
      validateDelegationProof now p =
        .error (.invalidInput "expiresAt" "Expiration time is too far in the future")) ∧
    (∀ deriveCode config msg chain sig e,
      validateDelegationProof now p = .error e →
      generateDelegatedCode deriveCode config now p msg chain sig = .error e) ∧
    (∀ verify config (a : DelegatedActionCode), a.delegationProof = p →
      ¬(a.expiresAt + config.clockSkewMs < now) →
      ∀ e, validateDelegationProof now p = .error e →
      validateDelegatedCode verify config now a = .error (.protocol e)) := by
  have hmf : (0 : Int) ≤ maxFutureMs := by unfold maxFutureMs; norm_num
  refine ⟨?_, ?_, ?_, ?_, ?_⟩
  · intro h
    unfold validateDelegationProof at h
    by_cases c1 : p.walletPubkey = ""
    · rw [if_pos c1] at h
      simp at h
    rw [if_neg c1] at h
    by_cases c2 : (publicKeyBytes p.walletPubkey).isNone = true
    · rw [if_pos c2] at h
      simp at h
    rw [if_neg c2] at h
    by_cases c3 : p.delegatedPubkey = ""
    · rw [if_pos c3] at h
      simp at h
    rw [if_neg c3] at h
    by_cases c4 : (publicKeyBytes p.delegatedPubkey).isNone = true
    · rw [if_pos c4] at h
      simp at h
    rw [if_neg c4] at h
    by_cases c5 : p.chain = ""
    · rw [if_pos c5] at h
      simp at h
    rw [if_neg c5] at h
    by_cases c6 : 50 < utf16Len p.chain
    · rw [if_pos c6] at h
      simp at h
    rw [if_neg c6] at h
    by_cases c7 : ¬ chainCharsOk p.chain = true
    · rw [if_pos c7] at h
      simp at h
    rw [if_neg c7] at h
    by_cases c8 : p.expiresAt ≤ 0
    · rw [if_pos c8] at h
      simp at h
    rw [if_neg c8] at h
    by_cases c9 : now + maxFutureMs < p.expiresAt
    · rw [if_pos c9] at h
      simp at h
    rw [if_neg c9] at h
    by_cases c10 : p.expiresAt < now
    · rw [if_pos c10] at h
      simp at h
    exact ⟨by omega, by omega⟩
  · intro hs hpos hlt
    obtain ⟨s1, s2, s3, s4, s5, s6, s7⟩ := hs
    unfold validateDelegationProof
    rw [if_neg s1, if_neg (by simp [s2]), if_neg s3, if_neg (by simp [s4]),
      if_neg s5, if_neg (by omega), if_neg (not_not_intro s7),
      if_neg (by omega), if_neg (by omega), if_pos hlt]
  · intro hs hpos hgt
    obtain ⟨s1, s2, s3, s4, s5, s6, s7⟩ := hs
    unfold validateDelegationProof
    rw [if_neg s1, if_neg (by simp [s2]), if_neg s3, if_neg (by simp [s4]),
      if_neg s5, if_neg (by omega), if_neg (not_not_intro s7),
      if_neg (by omega), if_pos hgt]
  · intro deriveCode config msg chain sig e he
    unfold generateDelegatedCode
    rw [he]
  · intro verify config a ha hexp e he
    unfold validateDelegatedCode
    rw [if_neg hexp, ha, he]

/-- Witness for the amended C8: a structurally valid proof expired one
second ago is rejected with `EXPIRED_CODE`. -/
theorem validateDelegationProof_expiry_witness :
    validateDelegationProof 2000
      { walletPubkey := "11111111111111111111111111111111",
        delegatedPubkey := "11111111111111111111111111111111",
        chain := "solana", expiresAt := 1000, signature := "s" } =
      .error (.expiredCode "Delegation proof has expired" 1000 2000) :=
  (validateDelegationProof_expiry 2000
    { walletPubkey := "11111111111111111111111111111111",
      delegatedPubkey := "11111111111111111111111111111111",
      chain := "solana", expiresAt := 1000, signature := "s" }).2.1
    (by refine ⟨by decide, by decide, by decide, by decide, by decide, by decide, by decide⟩)
    (by decide) (by decide)

/-- Every error of proof validation is an `INVALID_INPUT` or
`EXPIRED_CODE`, never `INVALID_CODE_FORMAT`. -/
theorem validateDelegationProof_error_shape (now : Int) (p : DelegationProof)
    (e : ProtocolError) (h : validateDelegationProof now p = .error e) :
    isCodeFormatError (.protocol e) = false := by
  unfold validateDelegationProof at h
  by_cases c1 : p.walletPubkey = ""
  · rw [if_pos c1] at h
    injection h with h1
    subst h1
    rfl
  rw [if_neg c1] at h
  by_cases c2 : (publicKeyBytes p.walletPubkey).isNone = true
  · rw [if_pos c2] at h
    injection h with h1
    subst h1
    rfl
  rw [if_neg c2] at h
  by_cases c3 : p.delegatedPubkey = ""
  · rw [if_pos c3] at h
    injection h with h1
    subst h1
    rfl
  rw [if_neg c3] at h
  by_cases c4 : (publicKeyBytes p.delegatedPubkey).isNone = true
  · rw [if_pos c4] at h
    injection h with h1
    subst h1
    rfl
  rw [if_neg c4] at h
  by_cases c5 : p.chain = ""
  · rw [if_pos c5] at h
    injection h with h1
    subst h1
    rfl
  rw [if_neg c5] at h
  by_cases c6 : 50 < utf16Len p.chain
  · rw [if_pos c6] at h
    injection h with h1
    subst h1
    rfl
  rw [if_neg c6] at h
  by_cases c7 : ¬ chainCharsOk p.chain = true
  · rw [if_pos c7] at h
    injection h with h1
    subst h1
    rfl
  rw [if_neg c7] at h
  by_cases c8 : p.expiresAt ≤ 0
  · rw [if_pos c8] at h
    injection h with h1
    subst h1
    rfl
  rw [if_neg c8] at h
  by_cases c9 : now + maxFutureMs < p.expiresAt
  · rw [if_pos c9] at h
    injection h with h1
    subst h1
    rfl
  rw [if_neg c9] at h
  by_cases c10 : p.expiresAt < now
  · rw [if_pos c10] at h
    injection h with h1
    subst h1
    rfl
  rw [if_neg c10] at h
  by_cases c11 : p.signature = ""
  · rw [if_pos c11] at h
    injection h with h1
    subst h1
    rfl
  rw [if_neg c11] at h
  by_cases c12 : 200 < utf16Len p.signature
  · rw [if_pos c12] at h
    injection h with h1
    subst h1
    rfl
  rw [if_neg c12] at h
  simp at h

/-- Every error of the canonical serializer is an `INVALID_INPUT`, never
`INVALID_CODE_FORMAT`. -/
theorem serializeCanonical_error_shape (parts : CanonicalMessageParts)
    (e : ProtocolError) (h : serializeCanonical parts = .error e) :
    isCodeFormatError (.protocol e) = false := by
  unfold serializeCanonical at h
  by_cases c1 : parts.pubkey = ""
  · rw [if_pos c1] at h
    injection h with h1
    subst h1
    rfl
  rw [if_neg c1] at h
  by_cases c2 : 100 < utf16Len parts.pubkey
  · rw [if_pos c2] at h
    injection h with h1
    subst h1
    rfl
  rw [if_neg c2] at h
  by_cases c3 : hasJsonUnsafeChar parts.pubkey = true
  · rw [if_pos c3] at h
    injection h with h1
    subst h1
    rfl
  rw [if_neg c3] at h
  simp at h

set_option maxRecDepth 40000 in
/-- C9 counterexample: a delegated action code whose `code` field does not
match the 8-digit format of the configuration passes
`validateDelegatedCode` (under an Ed25519 primitive accepting its
signature) instead of being rejected with `INVALID_CODE_FORMAT`: the
function contains no code-format check. -/
theorem validateDelegatedCode_format_counterexample :
    matchesCodeFormat 8 "ABCDEFGH" = false ∧
    validateDelegatedCode (fun _ _ _ => true) ⟨8, 120000, 0⟩ 500
      { code := "ABCDEFGH", pubkey := "11111111111111111111111111111111",
        timestamp := 1, expiresAt := 900, chain := "solana",
        signature := "1111111111111111111111111111111111111111111111111111111111111111",
        delegationProof :=
          { walletPubkey := "11111111111111111111111111111111",
            delegatedPubkey := "11111111111111111111111111111111",
            chain := "solana", expiresAt := 1000, signature := "s" } } =
      .ok () :=
  ⟨rfl, rfl⟩

/-- C9 as amended: `validateDelegatedCode` performs no code-format check at
all; no input is ever rejected with `INVALID_CODE_FORMAT` (its checks are
expiration, proof re-validation, pubkey binding, the outlives rule, and
signature verification). -/
theorem validateDelegatedCode_no_format_check
    (verify : List Nat → List Nat → List Nat → Bool)
    (config : CodeGenerationConfig) (now : Int) (a : DelegatedActionCode) :
    ∀ e, validateDelegatedCode verify config now a = .error e →
      isCodeFormatError e = false := by
  intro e h
  unfold validateDelegatedCode at h
  by_cases c1 : a.expiresAt + config.clockSkewMs < now
  · rw [if_pos c1] at h
    injection h with h1
    subst h1
    rfl
  rw [if_neg c1] at h
  cases hvp : validateDelegationProof now a.delegationProof with
  | error e2 =>
    simp only [hvp, Except.error.injEq] at h
    subst h
    exact validateDelegationProof_error_shape now a.delegationProof e2 hvp
  | ok u =>
    cases u
    simp only [hvp] at h
    by_cases c2 : a.pubkey ≠ a.delegationProof.delegatedPubkey
    · rw [if_pos c2] at h
      injection h with h1
      subst h1
      rfl
    rw [if_neg c2] at h
    by_cases c3 : a.delegationProof.expiresAt < a.expiresAt
    · rw [if_pos c3] at h
      injection h with h1
      subst h1
      rfl
    rw [if_neg c3] at h
    by_cases c4 : a.delegationProof.signature = ""
    · rw [if_pos c4] at h
      injection h with h1
      subst h1
      rfl
    rw [if_neg c4] at h
    cases hsc : serializeCanonical ⟨a.delegationProof.delegatedPubkey, a.timestamp⟩ with
    | error e3 =>
      simp only [hsc, Except.error.injEq] at h
      subst h
      exact serializeCanonical_error_shape _ e3 hsc
    | ok msg =>
      simp only [hsc] at h
      cases hb1 : bs58Decode a.signature with
      | none =>
        simp only [hb1, Except.error.injEq] at h
        subst h
        rfl
      | some sb =>
        simp only [hb1] at h
        cases hb2 : bs58Decode a.delegationProof.delegatedPubkey with
        | none =>
          simp only [hb2, Except.error.injEq] at h
          subst h
          rfl
        | some pb =>
          simp only [hb2] at h
          cases hnv : naclVerify verify msg sb pb with
          | error e4 =>
            simp only [hnv, Except.error.injEq] at h
            subst h
            rfl
          | ok b =>
            simp only [hnv] at h
            cases b with
            | false =>
              simp only [Except.error.injEq] at h
              subst h
              rfl
            | true => simp at h

/-- Witness for the amended C9: an expired delegated code errors with
`EXPIRED_CODE`, which is not a code-format rejection. -/
theorem validateDelegatedCode_no_format_check_witness :
    isCodeFormatError (.protocol (.expiredCode "c" 100 500)) = false :=
  validateDelegatedCode_no_format_check (fun _ _ _ => true) ⟨8, 120000, 0⟩ 500
    { code := "c", pubkey := "x", timestamp := 1, expiresAt := 100,
      chain := "solana", signature := "y",
      delegationProof :=
        { walletPubkey := "w", delegatedPubkey := "d", chain := "solana",
          expiresAt := 1000, signature := "s" } }
    (.protocol (.expiredCode "c" 100 500)) rfl

/-- C4 counterexample: `generateDelegatedCode` never checks that the
canonical message was built for the delegated pubkey; with a valid proof
and a canonical message naming a different pubkey, the returned code
carries the message pubkey, not `proof.delegatedPubkey`. -/
theorem generateDelegatedCode_pubkey_counterexample :
    generateDelegatedCode (fun _ _ => "12345678") ⟨8, 120000, 0⟩ 500
      { walletPubkey := "11111111111111111111111111111111",
        delegatedPubkey := "11111111111111111111111111111112",
        chain := "solana", expiresAt := 1000, signature := "s" }
      ⟨"11111111111111111111111111111111", 5⟩ "solana" "sig" =
      .ok { code := "12345678", pubkey := "11111111111111111111111111111111",
            timestamp := 5, expiresAt := 120005, chain := "solana",
            signature := "sig",
            delegationProof :=
              { walletPubkey := "11111111111111111111111111111111",
                delegatedPubkey := "11111111111111111111111111111112",
                chain := "solana", expiresAt := 1000, signature := "s" } } ∧
    ("11111111111111111111111111111111" : String) ≠
      "11111111111111111111111111111112" :=
  ⟨rfl, by decide⟩

/-- C4 as amended: a successfully generated delegated code embeds the
given proof unchanged and copies its `pubkey` (with `timestamp` and
`expiresAt`) from the canonical message; the pubkey therefore equals
`proof.delegatedPubkey` exactly when the canonical message was built for
the delegated pubkey, as `ActionCodesProtocol.generate` does. -/
theorem generateDelegatedCode_pubkey
    (deriveCode : String → CanonicalMessageParts → String)
    (config : CodeGenerationConfig) (now : Int) (proof : DelegationProof)
    (msg : CanonicalMessageParts) (chain : String) (sig : String)
    (r : DelegatedActionCode)
    (h : generateDelegatedCode deriveCode config now proof msg chain sig = .ok r) :
    r.pubkey = msg.pubkey ∧ r.delegationProof = proof ∧ r.signature = sig ∧
    r.timestamp = msg.windowStart ∧
    r.expiresAt = msg.windowStart + config.ttlMs ∧
    (r.pubkey = proof.delegatedPubkey ↔ msg.pubkey = proof.delegatedPubkey) := by
  unfold generateDelegatedCode at h
  cases hvp : validateDelegationProof now proof with
  | error e =>
    rw [hvp] at h
    simp at h
  | ok u =>
    cases u
    rw [hvp] at h
    injection h with h1
    subst h1
    exact ⟨rfl, rfl, rfl, rfl, rfl, Iff.rfl⟩

/-- Witness for the amended C4 at a facade-style call, where the canonical
message is built for the delegated pubkey. -/
theorem generateDelegatedCode_pubkey_witness :
    ({ code := "12345678", pubkey := "11111111111111111111111111111112",
       timestamp := 5, expiresAt := 120005, chain := "solana",
       signature := "sig",
       delegationProof :=
         { walletPubkey := "11111111111111111111111111111111",
           delegatedPubkey := "11111111111111111111111111111112",
           chain := "solana", expiresAt := 1000, signature := "s" } } :
         DelegatedActionCode).pubkey =
      ("11111111111111111111111111111112" : String) ∧
    ({ code := "12345678", pubkey := "11111111111111111111111111111112",
       timestamp := 5, expiresAt := 120005, chain := "solana",
       signature := "sig",
       delegationProof :=
         { walletPubkey := "11111111111111111111111111111111",
           delegatedPubkey := "11111111111111111111111111111112",
           chain := "solana", expiresAt := 1000, signature := "s" } } :
         DelegatedActionCode).delegationProof =
      { walletPubkey := "11111111111111111111111111111111",
        delegatedPubkey := "11111111111111111111111111111112",
        chain := "solana", expiresAt := 1000, signature := "s" } :=
  have h := generateDelegatedCode_pubkey (fun _ _ => "12345678") ⟨8, 120000, 0⟩ 500
    { walletPubkey := "11111111111111111111111111111111",
      delegatedPubkey := "11111111111111111111111111111112",
      chain := "solana", expiresAt := 1000, signature := "s" }
    ⟨"11111111111111111111111111111112", 5⟩ "solana" "sig" _ rfl
  ⟨h.1, h.2.1⟩

/-- The wallet verification tail performs at most one Ed25519 verification
and its count does not depend on the verification outcomes. -/
theorem verifyWithWalletTail_count
    (v1 v2 : List Nat → List Nat → List Nat → Bool) (a : ActionCodeRec) :
    (verifyWithWalletTail v1 a).2 = (verifyWithWalletTail v2 a).2 ∧
    (verifyWithWalletTail v1 a).2 ≤ 1 := by
  unfold verifyWithWalletTail
  cases hm : serializeCanonical ⟨a.pubkey, a.timestamp⟩ with
  | error e => exact ⟨rfl, Nat.zero_le _⟩
  | ok m =>
    cases hp : publicKeyBytes a.pubkey with
    | none => exact ⟨rfl, Nat.zero_le _⟩
    | some pb =>
      cases hs : bs58Decode a.signature with
      | none => exact ⟨rfl, Nat.zero_le _⟩
      | some sb =>
        by_cases hl : sb.length ≠ 64 ∨ pb.length ≠ 32 <;> simp [hl]

/-- The revoke wallet verification tail performs at most one Ed25519
verification, independently of the verification outcomes. -/
theorem verifyRevokeWithWalletTail_count
    (v1 v2 : List Nat → List Nat → List Nat → Bool)
    (codeHashFn : String → String) (a : ActionCodeRec) (rs : String) :
    (verifyRevokeWithWalletTail v1 codeHashFn a rs).2 =
      (verifyRevokeWithWalletTail v2 codeHashFn a rs).2 ∧
    (verifyRevokeWithWalletTail v1 codeHashFn a rs).2 ≤ 1 := by
  unfold verifyRevokeWithWalletTail
  cases hm : serializeCanonicalRevoke ⟨a.pubkey, codeHashFn a.code, a.timestamp⟩ with
  | error e => exact ⟨rfl, Nat.zero_le _⟩
  | ok m =>
    cases hp : publicKeyBytes a.pubkey with
    | none => exact ⟨rfl, Nat.zero_le _⟩
    | some pb =>
      cases hs : bs58Decode rs with
      | none => exact ⟨rfl, Nat.zero_le _⟩
      | some sb =>
        by_cases hl : sb.length ≠ 64 ∨ pb.length ≠ 32 <;> simp [hl]

/-- The delegation verification tail performs zero or exactly two Ed25519
verifications — never one — independently of the verification outcomes. -/
theorem verifyWithDelegationTail_count
    (v1 v2 : List Nat → List Nat → List Nat → Bool) (proof : DelegationProof)
    (sig : String) (msg : CanonicalMessageParts) :
    (verifyWithDelegationTail v1 proof sig msg).2 =
      (verifyWithDelegationTail v2 proof sig msg).2 ∧
    ((verifyWithDelegationTail v1 proof sig msg).2 = 0 ∨
      (verifyWithDelegationTail v1 proof sig msg).2 = 2) := by
  unfold verifyWithDelegationTail
  cases h1 : serializeDelegationProof proof with
  | error e => exact ⟨rfl, Or.inl rfl⟩
  | ok dm =>
    cases h2 : publicKeyBytes proof.walletPubkey with
    | none => exact ⟨rfl, Or.inl rfl⟩
    | some wpb =>
      cases h3 : bs58Decode proof.signature with
      | none => exact ⟨rfl, Or.inl rfl⟩
      | some wsb =>
        cases h4 : serializeCanonical msg with
        | error e => exact ⟨rfl, Or.inl rfl⟩
        | ok cm =>
          cases h5 : publicKeyBytes proof.delegatedPubkey with
          | none => exact ⟨rfl, Or.inl rfl⟩
          | some dpb =>
            cases h6 : bs58Decode sig with
            | none => exact ⟨rfl, Or.inl rfl⟩
            | some dsb =>
              by_cases hl1 : wsb.length ≠ 64 ∨ wpb.length ≠ 32
              · simp [hl1]
              by_cases hl2 : dsb.length ≠ 64 ∨ dpb.length ≠ 32 <;>
                simp [hl1, hl2]

/-- The revoke delegation verification tail performs zero or exactly two
Ed25519 verifications — never one — independently of the outcomes. -/
theorem verifyRevokeWithDelegationTail_count
    (v1 v2 : List Nat → List Nat → List Nat → Bool)
    (codeHashFn : String → String) (proof : DelegationProof)
    (a : ActionCodeRec) (rs : String) :
    (verifyRevokeWithDelegationTail v1 codeHashFn proof a rs).2 =
      (verifyRevokeWithDelegationTail v2 codeHashFn proof a rs).2 ∧
    ((verifyRevokeWithDelegationTail v1 codeHashFn proof a rs).2 = 0 ∨
      (verifyRevokeWithDelegationTail v1 codeHashFn proof a rs).2 = 2) := by
  unfold verifyRevokeWithDelegationTail
  cases h1 : serializeDelegationProof proof with
  | error e => exact ⟨rfl, Or.inl rfl⟩
  | ok dm =>
    cases h2 : publicKeyBytes proof.walletPubkey with
    | none => exact ⟨rfl, Or.inl rfl⟩
    | some wpb =>
      cases h3 : bs58Decode proof.signature with
      | none => exact ⟨rfl, Or.inl rfl⟩
      | some wsb =>
        cases h4 : serializeCanonicalRevoke
            ⟨proof.delegatedPubkey, codeHashFn a.code, a.timestamp⟩ with
        | error e => exact ⟨rfl, Or.inl rfl⟩
        | ok rm =>
          cases h5 : publicKeyBytes proof.delegatedPubkey with
          | none => exact ⟨rfl, Or.inl rfl⟩
          | some dpb =>
            cases h6 : bs58Decode rs with
            | none => exact ⟨rfl, Or.inl rfl⟩
            | some dsb =>
              by_cases hl1 : wsb.length ≠ 64 ∨ wpb.length ≠ 32
              · simp [hl1]
              by_cases hl2 : dsb.length ≠ 64 ∨ dpb.length ≠ 32 <;>
                simp [hl1, hl2]

/-- C5 counterexample: a code on a foreign chain fails verification with
zero Ed25519 verifications performed in all four adapter functions, so
the counts are not fixed at one and two across all inputs. -/
theorem adapterVerificationCount_counterexample :
    (verifyWithWallet (fun _ _ _ => true)
      { code := "12345678", pubkey := "p", timestamp := 1, expiresAt := 2,
        chain := "ethereum", signature := "s" }).2 = 0 ∧
    (verifyRevokeWithWallet (fun _ _ _ => true) (fun c => c)
      { code := "12345678", pubkey := "p", timestamp := 1, expiresAt := 2,
        chain := "ethereum", signature := "s" } "rs").2 = 0 ∧
    verifyWithDelegation (fun _ _ _ => true) 0
      { code := "12345678", pubkey := "p", timestamp := 1, expiresAt := 2,
        chain := "ethereum", signature := "s",
        delegationProof := some
          { walletPubkey := "w", delegatedPubkey := "p", chain := "solana",
            expiresAt := 10, signature := "ps" } } = .ok (false, 0) ∧
    (verifyRevokeWithDelegation (fun _ _ _ => true) (fun c => c) 0
      { code := "12345678", pubkey := "p", timestamp := 1, expiresAt := 2,
        chain := "ethereum", signature := "s",
        delegationProof := some
          { walletPubkey := "w", delegatedPubkey := "p", chain := "solana",
            expiresAt := 10, signature := "ps" } } "rs").2 = 0 ∧
    (0 : Nat) ≠ 1 ∧ (0 : Nat) ≠ 2 :=
  ⟨rfl, rfl, rfl, rfl, by decide, by decide⟩

/-- C5 as amended: in every adapter verification function the number of
Ed25519 verifications performed never depends on the outcome of any
verification (the count is identical under any two Ed25519 primitives);
the wallet variants perform at most one, and the delegation variants
perform zero or exactly two — never one, so a failing first verification
never skips the second.  Inputs rejected by the structural, decoding or
length prechecks perform zero. -/
theorem adapterVerificationCounts
    (v1 v2 : List Nat → List Nat → List Nat → Bool)
    (codeHashFn : String → String) (now : Int) (a : ActionCodeRec)
    (d : DelegatedActionCodeJS) (rs : String) :
    ((verifyWithWallet v1 a).2 = (verifyWithWallet v2 a).2 ∧
      (verifyWithWallet v1 a).2 ≤ 1) ∧
    ((verifyRevokeWithWallet v1 codeHashFn a rs).2 =
        (verifyRevokeWithWallet v2 codeHashFn a rs).2 ∧
      (verifyRevokeWithWallet v1 codeHashFn a rs).2 ≤ 1) ∧
    ((verifyWithDelegation v1 now d).map (fun r => r.2) =
        (verifyWithDelegation v2 now d).map (fun r => r.2) ∧
      ∀ b n, verifyWithDelegation v1 now d = .ok (b, n) → n = 0 ∨ n = 2) ∧
    ((verifyRevokeWithDelegation v1 codeHashFn now d rs).2 =
        (verifyRevokeWithDelegation v2 codeHashFn now d rs).2 ∧
      ((verifyRevokeWithDelegation v1 codeHashFn now d rs).2 = 0 ∨
        (verifyRevokeWithDelegation v1 codeHashFn now d rs).2 = 2)) := by
  refine ⟨?_, ?_, ?_, ?_⟩
  · unfold verifyWithWallet
    split_ifs
    · exact ⟨rfl, Nat.zero_le _⟩
    · exact ⟨rfl, Nat.zero_le _⟩
    · exact verifyWithWalletTail_count v1 v2 a
  · unfold verifyRevokeWithWallet
    split_ifs
    · exact ⟨rfl, Nat.zero_le _⟩
    · exact ⟨rfl, Nat.zero_le _⟩
    · exact verifyRevokeWithWalletTail_count v1 v2 codeHashFn a rs
  · unfold verifyWithDelegation
    split_ifs
    · exact ⟨rfl, fun b n h => by simp at h; omega⟩
    · exact ⟨rfl, fun b n h => by simp at h; omega⟩
    · cases d.delegationProof with
      | none => exact ⟨rfl, fun b n h => by simp at h⟩
      | some proof =>
        dsimp only
        split_ifs
        · exact ⟨rfl, fun b n h => by simp at h; omega⟩
        · exact ⟨rfl, fun b n h => by simp at h; omega⟩
        · exact ⟨rfl, fun b n h => by simp at h; omega⟩
        · exact ⟨rfl, fun b n h => by simp at h; omega⟩
        · have hc := verifyWithDelegationTail_count v1 v2 proof d.signature
            ⟨proof.delegatedPubkey, d.timestamp⟩
          refine ⟨congrArg Except.ok hc.1, ?_⟩
          intro b n h
          injection h with h2
          have h3 := hc.2
          rw [h2] at h3
          simpa using h3
  · unfold verifyRevokeWithDelegation
    split_ifs
    · exact ⟨rfl, Or.inl rfl⟩
    · exact ⟨rfl, Or.inl rfl⟩
    · cases d.delegationProof with
      | none => exact ⟨rfl, Or.inl rfl⟩
      | some proof =>
        dsimp only
        split_ifs
        · exact ⟨rfl, Or.inl rfl⟩
        · exact ⟨rfl, Or.inl rfl⟩
        · exact ⟨rfl, Or.inl rfl⟩
        · exact ⟨rfl, Or.inl rfl⟩
        · exact verifyRevokeWithDelegationTail_count v1 v2 codeHashFn proof
            d.toActionCodeRec rs

/-- Witness for the amended C5: at a concrete rejected delegated code the
verification count satisfies the zero-or-two shape. -/
theorem adapterVerificationCounts_witness : (0 : Nat) = 0 ∨ (0 : Nat) = 2 :=
  (adapterVerificationCounts (fun _ _ _ => true) (fun _ _ _ => false)
      (fun c => c) 0
      { code := "12345678", pubkey := "p", timestamp := 1, expiresAt := 2,
        chain := "ethereum", signature := "s" }
      { code := "12345678", pubkey := "p", timestamp := 1, expiresAt := 2,
        chain := "ethereum", signature := "s",
        delegationProof := some
          { walletPubkey := "w", delegatedPubkey := "p", chain := "solana",
            expiresAt := 10, signature := "ps" } } "rs").2.2.1.2 false 0 rfl

/-- C6: `verifyWithWallet`, `verifyRevokeWithWallet` and
`verifyRevokeWithDelegation` are total boolean functions in this model (no
escaping exception), but `verifyWithDelegation` reads
`delegationProof.walletPubkey` before any guard on `delegationProof` and
outside its try/catch: on an otherwise well-formed delegated code whose
`delegationProof` is undefined it raises a `TypeError` instead of
returning `false`, while the guarded revoke variant returns `false` on the
same input. -/
theorem verifyWithDelegation_throws_on_undefined_proof :
    verifyWithDelegation (fun _ _ _ => true) 0
      { code := "12345678", pubkey := "p", timestamp := 1, expiresAt := 2,
        chain := "solana", signature := "s", delegationProof := none } =
      .error (.typeError "Cannot read properties of undefined") ∧
    verifyRevokeWithDelegation (fun _ _ _ => true) (fun c => c) 0
      { code := "12345678", pubkey := "p", timestamp := 1, expiresAt := 2,
        chain := "solana", signature := "s", delegationProof := none } "rs" =
      (false, 0) :=
  ⟨rfl, rfl⟩

/-- C7: every transaction returned by `attachProtocolMeta` carries a fresh
zero-filled signature list whose length is the required-signature count of
the rewritten message, regardless of the signatures the input carried. -/
theorem attachProtocolMeta_signatures (hasMeta : VersionedTransaction → Bool)
    (recompile : MessageV0 → List Nat → MessageV0) (hasConnection : Bool)
    (metaIxData : List Nat) (tx tx2 : VersionedTransaction)
    (h : attachProtocolMeta hasMeta recompile hasConnection metaIxData tx = .ok tx2) :
    tx2.signatures =
      List.replicate tx2.message.header.numRequiredSignatures zeroSignature := by
  unfold attachProtocolMeta at h
  by_cases c1 : hasMeta tx = true
  · rw [if_pos c1] at h
    simp at h
  rw [if_neg c1] at h
  by_cases c2 : tx.message.addressTableLookups.length ≠ 0 ∧
      tx.message.compiledInstructions.any (fun ix =>
        ix.accountKeyIndexes.any (fun idx =>
          tx.message.staticAccountKeys.length ≤ idx))
  · rw [if_pos c2] at h
    by_cases c3 : ¬hasConnection = true
    · rw [if_pos c3] at h
      simp at h
    · rw [if_neg c3] at h
      injection h with h1
      subst h1
      rfl
  · rw [if_neg c2] at h
    injection h with h1
    subst h1
    rfl

/-- Witness for C7: attaching meta to a concrete signed one-signer
versioned transaction yields a single zero-filled signature, replacing the
previous non-zero signature. -/
theorem attachProtocolMeta_signatures_witness :
    ({ message :=
         { header := ⟨1, 0, 0⟩, staticAccountKeys := [memoProgramId],
           recentBlockhash := "bh",
           compiledInstructions := [⟨0, [], [7]⟩],
           addressTableLookups := [] },
       signatures := [zeroSignature] } :
        VersionedTransaction).signatures =
      List.replicate 1 zeroSignature :=
  attachProtocolMeta_signatures (fun _ => false) (fun m _ => m) false [7]
    { message :=
        { header := ⟨1, 0, 0⟩, staticAccountKeys := [],
          recentBlockhash := "bh", compiledInstructions := [],
          addressTableLookups := [] },
      signatures := [[5]] }
    _ rfl

/-- C10: for any chain other than "solana", `generate` and `revoke` reject
with `INVALID_ADAPTER` even on a protocol instance where `registerAdapter`
has just stored a conforming adapter under that chain, while `getAdapter`
does see the registration: the registry and the fixed supported-chain set
are independent. -/
theorem registerAdapter_does_not_extend_chains {α : Type} (p : Protocol α)
    (chain : String) (adapter : α) (h : chain ≠ "solana")
    (deriveCode : String → CanonicalMessageParts → String)
    (config : CodeGenerationConfig) (now : Int) (input : GenerateInput)
    (signFn : List Nat → String → String) (codeHashFn : String → String)
    (a : ActionCodeRec) :
    getAdapter (registerAdapter p chain adapter) chain = some adapter ∧
    protocolGenerate (registerAdapter p chain adapter) deriveCode config now
      input chain signFn = .error (.invalidAdapter chain) ∧
    protocolRevoke (registerAdapter p chain adapter) codeHashFn a chain signFn =
      .error (.invalidAdapter chain) := by
  refine ⟨?_, ?_, ?_⟩
  · simp [getAdapter, registerAdapter]
  · unfold protocolGenerate
    rw [if_pos (Or.inr (by simp [supportedChain, h]))]
  · unfold protocolRevoke
    rw [if_pos (Or.inr (by simp [supportedChain, h]))]

/-- Witness for C10 at the chain "ethereum" with a freshly constructed
protocol instance. -/
theorem registerAdapter_does_not_extend_chains_witness :
    getAdapter (registerAdapter (⟨[]⟩ : Protocol Nat) "ethereum" 7) "ethereum" =
      some 7 ∧
    protocolGenerate (registerAdapter (⟨[]⟩ : Protocol Nat) "ethereum" 7)
      (fun _ _ => "12345678") ⟨8, 120000, 0⟩ 500 (.wallet "pk") "ethereum"
      (fun _ _ => "sig") = .error (.invalidAdapter "ethereum") ∧
    protocolRevoke (registerAdapter (⟨[]⟩ : Protocol Nat) "ethereum" 7)
      (fun c => c)
      { code := "12345678", pubkey := "pk", timestamp := 1, expiresAt := 2,
        chain := "ethereum", signature := "s" } "ethereum" (fun _ _ => "sig") =
      .error (.invalidAdapter "ethereum") :=
  registerAdapter_does_not_extend_chains (⟨[]⟩ : Protocol Nat) "ethereum" 7
    (by decide) (fun _ _ => "12345678") ⟨8, 120000, 0⟩ 500 (.wallet "pk")
    (fun _ _ => "sig") (fun c => c)
    { code := "12345678", pubkey := "pk", timestamp := 1, expiresAt := 2,
      chain := "ethereum", signature := "s" }

end ActionCodes
